import Mathlib

/-!
Shallow embedding of the http-platform-go repository
(github.com/edaniel30/http-platform-go) for verifying its
natural-language specification.

Covered source files:
  models/config.go         — Config, DefaultConfig, Config.Validate
  errors/errors.go         — domain error constructors
  middleware/error_handler.go — ApiError, NewApiError, handleBasicError,
                                handlePanic, ErrorHandler
  middleware/cors.go       — CORSConfig, CORS
  middleware (trace id file) — TraceID, GetTraceID
  platform.go              — Platform.Start / Platform.Stop started-flag guard

Go machine integers (int, int64) are modelled as Int; time.Duration is
Int nanoseconds; slices are Lists; a nil-able logger pointer is
Option Unit.
-/

/-- Go time.Second in nanoseconds (time.Duration is int64 nanoseconds). -/
def timeSecond : Int := 1000000000

/-- Go time.Hour in nanoseconds. -/
def timeHour : Int := 3600 * timeSecond

/-- Embedding of the Config struct from models/config.go (the version with
telemetry fields, lines 11-60). The loki logger pointer is modelled as
Option Unit: none is Go nil. -/
structure Config where
  Port : Int
  Mode : String
  ReadTimeout : Int
  WriteTimeout : Int
  IdleTimeout : Int
  MaxHeaderBytes : Int
  Logger : Option Unit
  AllowedOrigins : List String
  AllowedMethods : List String
  AllowedHeaders : List String
  ExposedHeaders : List String
  AllowCredentials : Bool
  MaxAge : Int
  EnableTraceID : Bool
  EnableCORS : Bool
  EnableRecovery : Bool
  EnableLogger : Bool
  BasePath : String
  TrustedProxies : List String
  EnableTelemetry : Bool
  ServiceName : String
  ServiceVersion : String
  Environment : String
  OTLPEndpoint : String
  TelemetrySampleAll : Bool
deriving DecidableEq, Repr

/-- Embedding of DefaultConfig from models/config.go lines 64-92. -/
def DefaultConfig : Config :=
  { Port := 8080
    Mode := "debug"
    ReadTimeout := 30 * timeSecond
    WriteTimeout := 30 * timeSecond
    IdleTimeout := 60 * timeSecond
    MaxHeaderBytes := 1 <<< 20
    Logger := none
    AllowedOrigins := ["*"]
    AllowedMethods := ["GET", "POST", "PUT", "DELETE", "PATCH", "OPTIONS", "HEAD"]
    AllowedHeaders := ["*"]
    ExposedHeaders := ["Content-Length", "X-Trace-Id"]
    AllowCredentials := true
    MaxAge := 12 * timeHour
    EnableTraceID := true
    EnableCORS := true
    EnableRecovery := true
    EnableLogger := true
    BasePath := ""
    TrustedProxies := []
    EnableTelemetry := false
    ServiceName := "http-platform-service"
    ServiceVersion := "1.0.0"
    Environment := "development"
    OTLPEndpoint := "localhost:4318"
    TelemetrySampleAll := true }

/-- Message of errors.ErrNilLogger (errors/errors.go): the configError
Error method prepends "config error: ". -/
def errNilLoggerMsg : String := "config error: logger cannot be nil"

/-- Message of errors.ErrInvalidPort (errors/errors.go). -/
def errInvalidPortMsg (port : Int) : String :=
  "config error: invalid port: " ++ toString port ++ " (must be between 1 and 65535)"

/-- Message of errors.ErrInvalidMode (errors/errors.go). -/
def errInvalidModeMsg (mode : String) : String :=
  "config error: invalid mode: \x27" ++ mode ++ "\x27 (must be debug, release, or test)"

/-- Embedding of Config.Validate from models/config.go lines 94-120.
Returns some message (the ConfigError text) on failure, none (Go nil)
on success. -/
def Config.Validate (c : Config) : Option String :=
  if c.Logger = none then
    some errNilLoggerMsg
  else if c.Port ≤ 0 ∨ c.Port > 65535 then
    some (errInvalidPortMsg c.Port)
  else if c.Mode ≠ "debug" ∧ c.Mode ≠ "release" ∧ c.Mode ≠ "test" then
    some (errInvalidModeMsg c.Mode)
  else if c.ReadTimeout ≤ 0 then
    some "config error: readTimeout must be positive"
  else if c.WriteTimeout ≤ 0 then
    some "config error: writeTimeout must be positive"
  else if c.IdleTimeout ≤ 0 then
    some "config error: idleTimeout must be positive"
  else
    none

/-- The validation rules as the amended claim states them: Validate fails
naming the violated field exactly when the logger is absent, the port is
outside [1,65535], the mode is outside the closed set, or a timeout is
not positive; the wildcard-origin-with-credentials combination is not
checked here. Written from the spec's words for comparison with
Config.Validate. -/
def specValidate (c : Config) : Option String :=
  if c.Logger = none then
    some errNilLoggerMsg
  else if ¬ (1 ≤ c.Port ∧ c.Port ≤ 65535) then
    some (errInvalidPortMsg c.Port)
  else if ¬ (c.Mode = "debug" ∨ c.Mode = "release" ∨ c.Mode = "test") then
    some (errInvalidModeMsg c.Mode)
  else if ¬ (c.ReadTimeout > 0) then
    some "config error: readTimeout must be positive"
  else if ¬ (c.WriteTimeout > 0) then
    some "config error: writeTimeout must be positive"
  else if ¬ (c.IdleTimeout > 0) then
    some "config error: idleTimeout must be positive"
  else
    none

/-- The HTTP domain error kinds of errors/errors.go lines 57-182, one
constructor per exported error type built by a New...Error function.
ExternalServiceError additionally carries its caller-supplied status. -/
inductive PlatformError
  | notFound (message : String)
  | unauthorized (message : String)
  | conflict (message : String)
  | badRequest (message : String)
  | externalService (message : String) (status : Int)
  | forbidden (message : String)
  | unprocessableEntity (message : String)
  | tooManyRequests (message : String)
  | internalServer (message : String)
  | serviceUnavailable (message : String)
deriving DecidableEq, Repr

/-- The Error() method shared by all the domain error types in
errors/errors.go: each returns its stored message verbatim. -/
def PlatformError.errorMsg : PlatformError → String
  | .notFound m => m
  | .unauthorized m => m
  | .conflict m => m
  | .badRequest m => m
  | .externalService m _ => m
  | .forbidden m => m
  | .unprocessableEntity m => m
  | .tooManyRequests m => m
  | .internalServer m => m
  | .serviceUnavailable m => m

/-- A single go-playground/validator field error, reduced to the three
accessors the handler reads: Field(), ActualTag(), Param(). -/
structure FieldError where
  field : String
  tag : String
  param : String
deriving DecidableEq, Repr

/-- The Go error values that can reach handleBasicError, as a sum over
the structural cases of its type switch, the sentinel errors of its
fallback branch, and a catch-all for every other error (carrying the
raw Error() text). An errors.Is match on io.EOF or io.ErrUnexpectedEOF
is represented by the corresponding constructor. -/
inductive GoError
  | platform (e : PlatformError)
  | unmarshalType (field : String) (typeName : String) (value : String)
  | validation (errs : List FieldError)
  | jsonSyntax (offset : Int)
  | ioEOF
  | ioUnexpectedEOF
  | contextCanceled
  | deadlineExceeded
  | other (message : String)
deriving DecidableEq, Repr

/-- Go net/http statusText table (status.go of the standard library):
every code with a registered status text, in order. -/
def statusTextTable : List (Int × String) :=
  [(100, "Continue"), (101, "Switching Protocols"), (102, "Processing"),
   (103, "Early Hints"),
   (200, "OK"), (201, "Created"), (202, "Accepted"),
   (203, "Non-Authoritative Information"), (204, "No Content"),
   (205, "Reset Content"), (206, "Partial Content"), (207, "Multi-Status"),
   (208, "Already Reported"), (226, "IM Used"),
   (300, "Multiple Choices"), (301, "Moved Permanently"), (302, "Found"),
   (303, "See Other"), (304, "Not Modified"), (305, "Use Proxy"),
   (307, "Temporary Redirect"), (308, "Permanent Redirect"),
   (400, "Bad Request"), (401, "Unauthorized"), (402, "Payment Required"),
   (403, "Forbidden"), (404, "Not Found"), (405, "Method Not Allowed"),
   (406, "Not Acceptable"), (407, "Proxy Authentication Required"),
   (408, "Request Timeout"), (409, "Conflict"), (410, "Gone"),
   (411, "Length Required"), (412, "Precondition Failed"),
   (413, "Request Entity Too Large"), (414, "Request URI Too Long"),
   (415, "Unsupported Media Type"), (416, "Requested Range Not Satisfiable"),
   (417, "Expectation Failed"), (418, "I\x27m a teapot"),
   (421, "Misdirected Request"), (422, "Unprocessable Entity"),
   (423, "Locked"), (424, "Failed Dependency"), (425, "Too Early"),
   (426, "Upgrade Required"), (428, "Precondition Required"),
   (429, "Too Many Requests"), (431, "Request Header Fields Too Large"),
   (451, "Unavailable For Legal Reasons"),
   (500, "Internal Server Error"), (501, "Not Implemented"),
   (502, "Bad Gateway"), (503, "Service Unavailable"),
   (504, "Gateway Timeout"), (505, "HTTP Version Not Supported"),
   (506, "Variant Also Negotiates"), (507, "Insufficient Storage"),
   (508, "Loop Detected"), (510, "Not Extended"),
   (511, "Network Authentication Required")]

/-- Embedding of Go net/http StatusText: the registered text of the
code, or the empty string for an unknown code. -/
def statusText (code : Int) : String :=
  match statusTextTable.find? (fun p => p.1 == code) with
  | some p => p.2
  | none => ""

/-- One element of the variadic cause list of NewApiError. The only call
site passing a cause (the validation case) passes a slice of
field/reason pairs as a single variadic element. -/
inductive CauseElem
  | validationList (errs : List (String × String))
deriving DecidableEq, Repr

/-- Embedding of the ApiError struct of middleware/error_handler.go
lines 18-23 (the JSON body shape {message, error, status, cause}). -/
structure ApiError where
  Message : String
  Error : String
  Status : Int
  Cause : List CauseElem
deriving DecidableEq, Repr

/-- Embedding of NewApiError (middleware/error_handler.go lines 26-33):
the error label is always http.StatusText of the given status. -/
def NewApiError (message : String) (status : Int) (cause : List CauseElem) : ApiError :=
  { Message := message
    Error := statusText status
    Status := status
    Cause := cause }

/-- Embedding of descriptiveValidationErrors (middleware/error_handler.go
lines 242-252): field plus the failed tag, augmented with =param when
the tag carries a parameter. -/
def descriptiveValidationErrors (validationErrs : List FieldError) : List (String × String) :=
  validationErrs.map (fun fe =>
    (fe.field, if fe.param ≠ "" then fe.tag ++ "=" ++ fe.param else fe.tag))

/-- Embedding of handleBasicError (middleware/error_handler.go lines
122-239), restricted to its classification outcome: the ApiError
response and the errorType log label. The Go type switch is mirrored
case by case, with the default branch running the errors.Is and
sentinel-equality checks in order. -/
def handleBasicError : GoError → ApiError × String
  | .platform (.notFound m) => (NewApiError m 404 [], "NotFoundError")
  | .platform (.unauthorized m) => (NewApiError m 401 [], "UnauthorizedError")
  | .platform (.conflict m) => (NewApiError m 409 [], "ConflictError")
  | .platform (.externalService m st) => (NewApiError m st [], "ExternalServiceError")
  | .platform (.badRequest m) => (NewApiError m 400 [], "BadRequestError")
  | .platform (.forbidden m) => (NewApiError m 403 [], "ForbiddenError")
  | .platform (.unprocessableEntity m) => (NewApiError m 422 [], "UnprocessableEntityError")
  | .platform (.tooManyRequests m) => (NewApiError m 429 [], "TooManyRequestsError")
  | .platform (.internalServer m) => (NewApiError m 500 [], "InternalServerError")
  | .platform (.serviceUnavailable m) => (NewApiError m 503 [], "ServiceUnavailableError")
  | .unmarshalType f t v =>
      (NewApiError
        ("Invalid type for field \x27" ++ f ++ "\x27, expected " ++ t ++ " but got " ++ v)
        400 [], "UnmarshalTypeError")
  | .validation errs =>
      (NewApiError "Validation error" 400
        [CauseElem.validationList (descriptiveValidationErrors errs)], "ValidationError")
  | .jsonSyntax offset =>
      (NewApiError ("Invalid JSON syntax at position " ++ toString offset) 400 [],
       "JSONSyntaxError")
  | .ioEOF => (NewApiError "Request body is empty" 400 [], "EmptyBody")
  | .ioUnexpectedEOF => (NewApiError "Request body is incomplete" 400 [], "IncompleteBody")
  | .contextCanceled => (NewApiError "Request was cancelled by client" 499 [], "RequestCanceled")
  | .deadlineExceeded => (NewApiError "Request timeout exceeded" 408 [], "RequestTimeout")
  | .other _ => (NewApiError "An error occurred" 500 [], "UnknownError")

/-- True exactly on the errors matched by one of the structural type
cases of the switch in handleBasicError (platform domain kinds, JSON
type mismatch, validation collection, JSON syntax error); false on the
errors that reach the default (fallback) branch. -/
def isStructuralCase : GoError → Bool
  | .platform _ => true
  | .unmarshalType _ _ _ => true
  | .validation _ => true
  | .jsonSyntax _ => true
  | _ => false

/-- The errorType labels produced only by the fallback branch of
handleBasicError. -/
def fallbackLabels : List String :=
  ["EmptyBody", "IncompleteBody", "RequestCanceled", "RequestTimeout", "UnknownError"]

/-- A recovered panic value: either a Go error value or a value of any
other type (represented by its fmt formatting). -/
inductive PanicValue
  | goError (e : GoError)
  | nonError (payload : String)
deriving DecidableEq, Repr

/-- Embedding of handlePanic (middleware/error_handler.go lines
97-118), restricted to the response it produces: an error panic value
is fed to handleBasicError, any other value yields the fixed 500
response without consulting the classification switch. -/
def handlePanic : PanicValue → ApiError
  | .goError e => (handleBasicError e).1
  | .nonError _ => NewApiError "Internal server error panic" 500 []

/-- Embedding of the post-chain step of ErrorHandler
(middleware/error_handler.go lines 72-76): if the accumulated error
list is non-empty, only its first element is classified and answered;
an empty list produces no error response. -/
def errorHandlerRespond : List GoError → Option (ApiError × String)
  | [] => none
  | e :: _ => some (handleBasicError e)

/-- The documented status for each domain error kind, written from the
spec's mapping table (NotFound to 404, Unauthorized to 401, Forbidden to
403, Conflict to 409, BadRequest to 400, UnprocessableEntity to 422,
TooManyRequests to 429, InternalServerError to 500, ServiceUnavailable
to 503, ExternalService to its carried status), for comparison with
handleBasicError. -/
def specDomainStatus : PlatformError → Int
  | .notFound _ => 404
  | .unauthorized _ => 401
  | .forbidden _ => 403
  | .conflict _ => 409
  | .badRequest _ => 400
  | .unprocessableEntity _ => 422
  | .tooManyRequests _ => 429
  | .internalServer _ => 500
  | .serviceUnavailable _ => 503
  | .externalService _ st => st

/-- Embedding of the CORSConfig struct of middleware/cors.go lines 11-18. -/
structure CORSConfig where
  AllowedOrigins : List String
  AllowedMethods : List String
  AllowedHeaders : List String
  ExposedHeaders : List String
  AllowCredentials : Bool
  MaxAge : Int
deriving DecidableEq, Repr

/-- The gin-contrib cors.Config fields set by the CORS constructor
(zero values for the rest of the relevant fields: AllowAllOrigins
false, AllowOrigins nil). -/
structure GinCORSConfig where
  AllowAllOrigins : Bool
  AllowOrigins : List String
  AllowMethods : List String
  AllowHeaders : List String
  ExposeHeaders : List String
  AllowCredentials : Bool
  MaxAge : Int
deriving DecidableEq, Repr

/-- Embedding of CORS (middleware/cors.go lines 20-40): builds the
effective cors.Config; when the allowed-origin list is exactly the
one-element wildcard list, AllowAllOrigins is set and AllowCredentials
is forced to false, regardless of the configured flag. -/
def CORS (cfg : CORSConfig) : GinCORSConfig :=
  let allowAllOrigins := cfg.AllowedOrigins.length == 1 && cfg.AllowedOrigins.getD 0 "" == "*"
  let config : GinCORSConfig :=
    { AllowAllOrigins := false
      AllowOrigins := []
      AllowMethods := cfg.AllowedMethods
      AllowHeaders := cfg.AllowedHeaders
      ExposeHeaders := cfg.ExposedHeaders
      AllowCredentials := cfg.AllowCredentials
      MaxAge := cfg.MaxAge }
  if allowAllOrigins then
    { config with AllowAllOrigins := true, AllowCredentials := false }
  else
    { config with AllowOrigins := cfg.AllowedOrigins }

/-- The hextable constant of Go encoding/hex. -/
def hextable : String := "0123456789abcdef"

/-- The lowercase hex alphabet used by encoding/hex, as characters. -/
def hexDigits : List Char := hextable.data

/-- The lowercase hex digit of a value below 16. -/
def hexChar (n : Nat) : Char := hexDigits.getD n '0'

/-- The two lowercase hex digits of one byte. -/
def byteHexChars (b : Nat) : List Char := [hexChar (b / 16), hexChar (b % 16)]

/-- The sixteen random bytes drawn by uuid.NewRandom, each reduced mod
256 where used. -/
structure RandomBytes where
  b0 : Nat
  b1 : Nat
  b2 : Nat
  b3 : Nat
  b4 : Nat
  b5 : Nat
  b6 : Nat
  b7 : Nat
  b8 : Nat
  b9 : Nat
  b10 : Nat
  b11 : Nat
  b12 : Nat
  b13 : Nat
  b14 : Nat
  b15 : Nat
deriving DecidableEq, Repr

/-- Byte 6 after uuid.NewRandom forces the version nibble:
(b and 0x0f) or 0x40. -/
def uuidVersionByte (x : Nat) : Nat := ((x % 256) &&& 15) ||| 64

/-- Byte 8 after uuid.NewRandom forces the RFC 4122 variant bits:
(b and 0x3f) or 0x80. -/
def uuidVariantByte (x : Nat) : Nat := ((x % 256) &&& 63) ||| 128

/-- The character list of the canonical 8-4-4-4-12 hyphenated rendering
produced by the String method of a uuid built by uuid.New from the
given random bytes (version and variant bits forced, lowercase hex). -/
def uuidStringChars (r : RandomBytes) : List Char :=
  byteHexChars (r.b0 % 256) ++ byteHexChars (r.b1 % 256) ++
  byteHexChars (r.b2 % 256) ++ byteHexChars (r.b3 % 256) ++ ['-'] ++
  byteHexChars (r.b4 % 256) ++ byteHexChars (r.b5 % 256) ++ ['-'] ++
  byteHexChars (uuidVersionByte r.b6) ++ byteHexChars (r.b7 % 256) ++ ['-'] ++
  byteHexChars (uuidVariantByte r.b8) ++ byteHexChars (r.b9 % 256) ++ ['-'] ++
  byteHexChars (r.b10 % 256) ++ byteHexChars (r.b11 % 256) ++
  byteHexChars (r.b12 % 256) ++ byteHexChars (r.b13 % 256) ++
  byteHexChars (r.b14 % 256) ++ byteHexChars (r.b15 % 256)

/-- Embedding of uuid.New().String() from the google/uuid dependency,
parameterised by the random bytes it draws. -/
def uuidNewString (r : RandomBytes) : String := String.mk (uuidStringChars r)

/-- Checks the canonical hyphenated version-4 UUID shape on a list of
characters: 36 characters, hyphens at positions 8, 13, 18 and 23,
lowercase hex digits elsewhere, the version digit 4 at position 14 and
an RFC 4122 variant digit at position 19. -/
def isCanonicalUUIDv4Chars : List Char → Bool
  | a0 :: a1 :: a2 :: a3 :: a4 :: a5 :: a6 :: a7 :: h1 ::
    g0 :: g1 :: g2 :: g3 :: h2 ::
    c0 :: c1 :: c2 :: c3 :: h3 ::
    d0 :: d1 :: d2 :: d3 :: h4 ::
    e0 :: e1 :: e2 :: e3 :: e4 :: e5 :: e6 :: e7 :: e8 :: e9 :: e10 :: e11 :: [] =>
      h1 == '-' && h2 == '-' && h3 == '-' && h4 == '-' &&
      c0 == '4' &&
      ['8', '9', 'a', 'b'].contains d0 &&
      ([a0, a1, a2, a3, a4, a5, a6, a7, g0, g1, g2, g3, c1, c2, c3,
        d1, d2, d3, e0, e1, e2, e3, e4, e5, e6, e7, e8, e9, e10, e11].all
        (fun c => hexDigits.contains c))
  | _ => false

/-- Canonical version-4 UUID shape check on a string. -/
def isCanonicalUUIDv4 (s : String) : Bool := isCanonicalUUIDv4Chars s.data

/-- The header name used by the trace-ID middleware. -/
def TraceIDHeader : String := "X-Trace-Id"

/-- The gin context key under which the trace ID is stored. -/
def TraceIDKey : String := "trace_id"

/-- A value stored in the gin context key map: either a string or a
value of any other type. -/
inductive GinValue
  | str (s : String)
  | nonString
deriving DecidableEq, Repr

/-- The observable effect of the TraceID middleware on one request: the
value stored under the trace-ID key and the response header written. -/
structure TraceResult where
  stored : String
  respHeader : String
deriving DecidableEq, Repr

/-- Embedding of the TraceID middleware (trace-ID source file, TraceID
function): read the inbound X-Trace-Id header; when it is empty,
generate uuid.New().String() from the process randomness; store the
identifier in the context and write it as the response header. -/
def TraceID (inboundHeader : String) (r : RandomBytes) : TraceResult :=
  let traceID := if inboundHeader == "" then uuidNewString r else inboundHeader
  { stored := traceID, respHeader := traceID }

/-- Gin context key lookup (c.Get): the first binding of the key. -/
def ginGet (keys : List (String × GinValue)) (k : String) : Option GinValue :=
  (keys.find? (fun p => p.1 == k)).map (fun p => p.2)

/-- Embedding of GetTraceID (trace-ID source file): the stored string
under the trace-ID key, or the empty string when the key is absent or
holds a non-string value. -/
def GetTraceID (keys : List (String × GinValue)) : String :=
  match ginGet keys TraceIDKey with
  | some (.str s) => s
  | some .nonString => ""
  | none => ""

/-- Runtime errors returned by the platform lifecycle
(errors/errors.go RuntimeError values). -/
inductive RuntimeErr
  | alreadyStarted
  | notStarted
  | runOutcome (failed : Bool)
deriving DecidableEq, Repr

/-- The lifecycle state of a Platform (platform.go lines 51-57): the
started flag and the server handle guarded by the lock, plus a count of
listeners opened, to observe whether Start opened one. -/
structure Platform where
  started : Bool
  hasServer : Bool
  listenersOpened : Nat
deriving DecidableEq, Repr

/-- Embedding of Platform.Start (platform.go lines 104-160) at the
level of the guarded started flag and server creation: a started
platform returns ErrAlreadyStarted unchanged without opening a
listener; otherwise the flag is set, the server is created, one
listener is opened, and the blocking serve/shutdown phase returns the
abstracted outcome. No path clears the started flag. -/
def Platform.Start (p : Platform) (outcome : Option RuntimeErr) : Platform × Option RuntimeErr :=
  if p.started then
    (p, some RuntimeErr.alreadyStarted)
  else
    ({ started := true, hasServer := true, listenersOpened := p.listenersOpened + 1 }, outcome)

/-- Embedding of Platform.Stop (platform.go lines 163-172): with no
server it returns ErrNotStarted; otherwise it shuts the server down and
returns the shutdown outcome. Neither branch touches the started flag
or the server handle. -/
def Platform.Stop (p : Platform) (shutdownFailed : Bool) : Platform × Option RuntimeErr :=
  if ¬ p.hasServer then
    (p, some RuntimeErr.notStarted)
  else
    (p, if shutdownFailed then some (RuntimeErr.runOutcome true) else none)

/-- Concrete randomness sample used by witnesses. -/
def sampleBytes : RandomBytes := ⟨0, 0, 0, 0, 0, 0, 0, 0, 0, 0, 0, 0, 0, 0, 0, 0⟩

set_option maxRecDepth 8192 in
/-- Both hex digits of any byte are in the lowercase hex alphabet. -/
theorem hexPair_fin : ∀ x : Fin 256,
    hexChar (x.val / 16) ∈ hexDigits ∧ hexChar (x.val % 16) ∈ hexDigits := by decide

set_option maxRecDepth 8192 in
/-- The version byte of a uuid always renders as the digit 4 followed
by a hex digit. -/
theorem versionByte_fin : ∀ x : Fin 256,
    hexChar ((x.val &&& 15 ||| 64) / 16) = '4' ∧
    hexChar ((x.val &&& 15 ||| 64) % 16) ∈ hexDigits := by decide

set_option maxRecDepth 8192 in
/-- The variant byte of a uuid always renders as one of 8, 9, a, b
followed by a hex digit. -/
theorem variantByte_fin : ∀ x : Fin 256,
    (hexChar ((x.val &&& 63 ||| 128) / 16) = '8' ∨
     hexChar ((x.val &&& 63 ||| 128) / 16) = '9' ∨
     hexChar ((x.val &&& 63 ||| 128) / 16) = 'a' ∨
     hexChar ((x.val &&& 63 ||| 128) / 16) = 'b') ∧
    hexChar ((x.val &&& 63 ||| 128) % 16) ∈ hexDigits := by decide

/-- High hex digit of a reduced byte is in the hex alphabet. -/
theorem hexDiv_ok (n : Nat) : hexChar (n % 256 / 16) ∈ hexDigits :=
  (hexPair_fin ⟨n % 256, Nat.mod_lt _ (by norm_num)⟩).1

/-- Low hex digit of a reduced byte is in the hex alphabet. -/
theorem hexMod_ok (n : Nat) : hexChar (n % 256 % 16) ∈ hexDigits :=
  (hexPair_fin ⟨n % 256, Nat.mod_lt _ (by norm_num)⟩).2

/-- The version byte renders its high digit as 4. -/
theorem versionDiv_eq (n : Nat) : hexChar (uuidVersionByte n / 16) = '4' :=
  (versionByte_fin ⟨n % 256, Nat.mod_lt _ (by norm_num)⟩).1

/-- The version byte renders its low digit as a hex digit. -/
theorem versionMod_ok (n : Nat) : hexChar (uuidVersionByte n % 16) ∈ hexDigits :=
  (versionByte_fin ⟨n % 256, Nat.mod_lt _ (by norm_num)⟩).2

/-- The variant byte renders its high digit as 8, 9, a or b. -/
theorem variantDiv_ok (n : Nat) :
    hexChar (uuidVariantByte n / 16) = '8' ∨ hexChar (uuidVariantByte n / 16) = '9' ∨
    hexChar (uuidVariantByte n / 16) = 'a' ∨ hexChar (uuidVariantByte n / 16) = 'b' :=
  (variantByte_fin ⟨n % 256, Nat.mod_lt _ (by norm_num)⟩).1

/-- The variant byte renders its low digit as a hex digit. -/
theorem variantMod_ok (n : Nat) : hexChar (uuidVariantByte n % 16) ∈ hexDigits :=
  (variantByte_fin ⟨n % 256, Nat.mod_lt _ (by norm_num)⟩).2

/-- Every uuid.New().String() rendering has the canonical hyphenated
version-4 shape, whatever random bytes were drawn. -/
theorem uuidNewString_canonical (r : RandomBytes) :
    isCanonicalUUIDv4 (uuidNewString r) = true := by
  show isCanonicalUUIDv4Chars (uuidStringChars r) = true
  simp only [uuidStringChars, byteHexChars, List.cons_append, List.nil_append]
  simp [isCanonicalUUIDv4Chars, hexDiv_ok, hexMod_ok, versionDiv_eq, versionMod_ok,
    variantDiv_ok, variantMod_ok]

/-- C1: every error built by one of the platform domain-error
constructors is classified to exactly the documented status code
(NotFound 404, Unauthorized 401, Forbidden 403, Conflict 409,
BadRequest 400, UnprocessableEntity 422, TooManyRequests 429,
InternalServerError 500, ServiceUnavailable 503, ExternalServiceError
its carried status), with the matching HTTP status-text label and body
{message: the error message, error: the status text, status: the code}
and no cause list. The documented labels of the fixed codes are also
pinned, along with the spec example for NotFound "User not found". -/
theorem domain_error_classification (e : PlatformError) :
    (handleBasicError (GoError.platform e)).1.Status = specDomainStatus e ∧
    (handleBasicError (GoError.platform e)).1.Message = e.errorMsg ∧
    (handleBasicError (GoError.platform e)).1.Error = statusText (specDomainStatus e) ∧
    (handleBasicError (GoError.platform e)).1.Cause = [] ∧
    statusText 404 = "Not Found" ∧ statusText 401 = "Unauthorized" ∧
    statusText 403 = "Forbidden" ∧ statusText 409 = "Conflict" ∧
    statusText 400 = "Bad Request" ∧ statusText 422 = "Unprocessable Entity" ∧
    statusText 429 = "Too Many Requests" ∧ statusText 500 = "Internal Server Error" ∧
    statusText 503 = "Service Unavailable" ∧
    handleBasicError (GoError.platform (PlatformError.notFound "User not found")) =
      ({ Message := "User not found", Error := "Not Found", Status := 404, Cause := [] },
       "NotFoundError") := by
  cases e <;>
    exact ⟨rfl, rfl, rfl, rfl, rfl, rfl, rfl, rfl, rfl, rfl, rfl, rfl, rfl, rfl⟩

/-- C2: exactly the errors matched by no structural case of the type
switch are answered by the fallback branch (witnessed by its five
errorType labels), and the fallback maps the empty-body EOF to 400
"Request body is empty", the unexpected EOF to 400 "Request body is
incomplete", the cancellation sentinel to 499, the deadline sentinel to
408, and any other error to the fixed generic 500 response "An error
occurred" that does not depend on (and so never echoes) the raw error
text. -/
theorem fallback_classification (e : GoError) (m : String) :
    (isStructuralCase e = false ↔ fallbackLabels.contains (handleBasicError e).2 = true) ∧
    handleBasicError GoError.ioEOF = (NewApiError "Request body is empty" 400 [], "EmptyBody") ∧
    (handleBasicError GoError.ioEOF).1.Message = "Request " ++ "body is empty" ∧
    handleBasicError GoError.ioUnexpectedEOF =
      (NewApiError "Request body is incomplete" 400 [], "IncompleteBody") ∧
    (handleBasicError GoError.ioUnexpectedEOF).1.Message = "Request " ++ "body is incomplete" ∧
    (handleBasicError GoError.contextCanceled).1.Status = 499 ∧
    (handleBasicError GoError.deadlineExceeded).1.Status = 408 ∧
    (handleBasicError (GoError.other m)).1 = NewApiError "An error occurred" 500 [] := by
  refine ⟨?_, rfl, rfl, rfl, rfl, rfl, rfl, rfl⟩
  cases e with
  | platform pe => cases pe <;> simp [isStructuralCase, handleBasicError, fallbackLabels]
  | unmarshalType f t v => simp [isStructuralCase, handleBasicError, fallbackLabels]
  | validation errs => simp [isStructuralCase, handleBasicError, fallbackLabels]
  | jsonSyntax offset => simp [isStructuralCase, handleBasicError, fallbackLabels]
  | ioEOF => simp [isStructuralCase, handleBasicError, fallbackLabels]
  | ioUnexpectedEOF => simp [isStructuralCase, handleBasicError, fallbackLabels]
  | contextCanceled => simp [isStructuralCase, handleBasicError, fallbackLabels]
  | deadlineExceeded => simp [isStructuralCase, handleBasicError, fallbackLabels]
  | other msg => simp [isStructuralCase, handleBasicError, fallbackLabels]

/-- C3 counterexample: DefaultConfig pairs the wildcard origin list
with the credentials flag set to true, so the claimed "credentials flag
disabled" default is false on the code. -/
theorem defaultConfig_credentials_cex :
    DefaultConfig.AllowedOrigins = ["*"] ∧ DefaultConfig.AllowCredentials = true ∧
    ¬ (DefaultConfig.AllowCredentials = false) := by decide

/-- C3 amended: DefaultConfig returns port 8080, debug mode, 30-second
read and write timeouts, 60-second idle timeout, 1 MiB max header
bytes, a nil logger, allowed origins exactly the wildcard with the
credentials flag ENABLED, and every middleware toggle on except
telemetry. -/
theorem defaultConfig_values :
    DefaultConfig.Port = 8080 ∧ DefaultConfig.Mode = "debug" ∧
    DefaultConfig.ReadTimeout = 30 * timeSecond ∧
    DefaultConfig.WriteTimeout = 30 * timeSecond ∧
    DefaultConfig.IdleTimeout = 60 * timeSecond ∧
    DefaultConfig.MaxHeaderBytes = 1048576 ∧
    DefaultConfig.Logger = none ∧
    DefaultConfig.AllowedOrigins = ["*"] ∧
    DefaultConfig.AllowCredentials = true ∧
    DefaultConfig.EnableTraceID = true ∧ DefaultConfig.EnableCORS = true ∧
    DefaultConfig.EnableRecovery = true ∧ DefaultConfig.EnableLogger = true ∧
    DefaultConfig.EnableTelemetry = false := by decide

/-- C4 counterexample: a config whose origin list is exactly the
wildcard while the credentials flag is true passes Validate, so the
claimed wildcard-with-credentials rejection does not exist in the
code. -/
theorem validate_wildcard_cex :
    ({ DefaultConfig with Logger := some () } : Config).AllowedOrigins = ["*"] ∧
    ({ DefaultConfig with Logger := some () } : Config).AllowCredentials = true ∧
    Config.Validate { DefaultConfig with Logger := some () } = none := by decide

/-- C4 amended: Validate fails with a ConfigError naming the violated
field exactly when the logger is absent, the port is outside [1,65535],
the mode is outside {debug, release, test}, or one of the three
timeouts is not positive, and succeeds otherwise; the
wildcard-origin-with-credentials combination is not checked by
Validate. -/
theorem validate_characterization (c : Config) : Config.Validate c = specValidate c := by
  unfold Config.Validate specValidate
  have hport : (c.Port ≤ 0 ∨ c.Port > 65535) ↔ ¬ (1 ≤ c.Port ∧ c.Port ≤ 65535) := by omega
  have hmode : (c.Mode ≠ "debug" ∧ c.Mode ≠ "release" ∧ c.Mode ≠ "test") ↔
      ¬ (c.Mode = "debug" ∨ c.Mode = "release" ∨ c.Mode = "test") := by tauto
  have hrt : c.ReadTimeout ≤ 0 ↔ ¬ (c.ReadTimeout > 0) := by omega
  have hwt : c.WriteTimeout ≤ 0 ↔ ¬ (c.WriteTimeout > 0) := by omega
  have hit : c.IdleTimeout ≤ 0 ↔ ¬ (c.IdleTimeout > 0) := by omega
  simp only [hport, hmode, hrt, hwt, hit]

/-- Helper: the wildcard check of the CORS constructor holds exactly on
the one-element wildcard origin list. -/
theorem wildcard_check (l : List String) :
    (l.length == 1 && l.getD 0 "" == "*") = decide (l = ["*"]) := by
  match l with
  | [] => rfl
  | [a] => by_cases h : a = "*" <;> simp [List.getD, h]
  | a :: b :: tl => simp

/-- C5: the effective gin-contrib cors.Config built by CORS carries the
credentials flag false whenever the allowed-origin list is exactly the
wildcard (even if the caller set it true), and carries the caller's
flag unchanged otherwise. -/
theorem cors_wildcard_credentials (cfg : CORSConfig) :
    ((CORS cfg).AllowCredentials =
      if cfg.AllowedOrigins = ["*"] then false else cfg.AllowCredentials) ∧
    ((CORS { cfg with AllowCredentials := true }).AllowCredentials =
      if cfg.AllowedOrigins = ["*"] then false else true) ∧
    (CORS { cfg with AllowedOrigins := ["*"], AllowCredentials := true }).AllowCredentials
      = false := by
  refine ⟨?_, ?_, ?_⟩
  · simp only [CORS, wildcard_check]
    by_cases h : cfg.AllowedOrigins = ["*"] <;> simp [h]
  · simp only [CORS, wildcard_check]
    by_cases h : cfg.AllowedOrigins = ["*"] <;> simp [h]
  · simp [CORS, wildcard_check]

/-- C6: when the inbound X-Trace-Id header is non-empty the middleware
writes it back verbatim as the response header; when it is absent or
empty the response header is a freshly generated uuid whose rendering
always has the canonical hyphenated 8-4-4-4-12 version-4 shape; the
stored and response values coincide; and GetTraceID returns the empty
string, never an error, when nothing is stored under the trace key. -/
theorem traceID_contract (inbound : String) (r : RandomBytes)
    (keys : List (String × GinValue)) :
    (inbound ≠ "" → (TraceID inbound r).respHeader = inbound) ∧
    (inbound = "" → (TraceID inbound r).respHeader = uuidNewString r) ∧
    isCanonicalUUIDv4 (uuidNewString r) = true ∧
    (TraceID inbound r).stored = (TraceID inbound r).respHeader ∧
    (ginGet keys TraceIDKey = none → GetTraceID keys = "") := by
  refine ⟨?_, ?_, uuidNewString_canonical r, rfl, ?_⟩
  · intro h
    simp [TraceID, h]
  · intro h
    simp [TraceID, h]
  · intro h
    simp [GetTraceID, h]

/-- C6 witness: the round trip at the concrete header value "abc", the
uuid branch at the empty header, and GetTraceID on an empty store. -/
theorem traceID_contract_witness :
    (TraceID "abc" sampleBytes).respHeader = "abc" ∧
    (TraceID "" sampleBytes).respHeader = uuidNewString sampleBytes ∧
    GetTraceID [] = "" := by
  have h1 := traceID_contract "abc" sampleBytes []
  have h2 := traceID_contract "" sampleBytes []
  exact ⟨h1.1 (by decide), h2.2.1 rfl, h1.2.2.2.2 rfl⟩

/-- C7: when the accumulated error list is non-empty, the error-handler
middleware classifies and answers only its first element; the response
is independent of every later accumulated error, and an empty list
produces no error response. -/
theorem errorHandler_first_error_only (e : GoError) (rest other : List GoError) :
    errorHandlerRespond (e :: rest) = some (handleBasicError e) ∧
    errorHandlerRespond (e :: rest) = errorHandlerRespond (e :: other) ∧
    errorHandlerRespond [] = none :=
  ⟨rfl, rfl, rfl⟩

/-- C8: every panic value that is not an error produces the identical
fixed response, status 500 with message "Internal server error panic",
independent of the payload, bypassing the classification switch. -/
theorem nonError_panic_uniform (p q : String) :
    handlePanic (PanicValue.nonError p) = NewApiError "Internal server error panic" 500 [] ∧
    handlePanic (PanicValue.nonError p) = handlePanic (PanicValue.nonError q) ∧
    (handlePanic (PanicValue.nonError p)).Status = 500 ∧
    (handlePanic (PanicValue.nonError p)).Message = "Internal server error panic" :=
  ⟨rfl, rfl, rfl, rfl⟩

/-- C9: Start always leaves the started flag set, Stop never changes
the platform state (in particular it does not clear the started flag),
and calling Start on an already-started platform returns the
already-started error with the state unchanged and no new listener
opened. -/
theorem platform_single_use (p : Platform) (outcome : Option RuntimeErr)
    (shutdownFailed : Bool) :
    (Platform.Start p outcome).1.started = true ∧
    (Platform.Stop p shutdownFailed).1 = p ∧
    (p.started = true → Platform.Start p outcome = (p, some RuntimeErr.alreadyStarted)) ∧
    (p.started = true →
      (Platform.Start p outcome).1.listenersOpened = p.listenersOpened) := by
  refine ⟨?_, ?_, ?_, ?_⟩
  · by_cases h : p.started <;> simp [Platform.Start, h]
  · simp only [Platform.Stop]
    split <;> rfl
  · intro h
    simp [Platform.Start, h]
  · intro h
    simp [Platform.Start, h]

/-- C9 witness: starting a fresh platform, stopping it, and starting
again returns the already-started error on the concrete instance. -/
theorem platform_single_use_witness :
    (Platform.Stop (Platform.Start ⟨false, false, 0⟩ none).1 false).1.started = true ∧
    Platform.Start (Platform.Stop (Platform.Start ⟨false, false, 0⟩ none).1 false).1 none =
      ((Platform.Stop (Platform.Start ⟨false, false, 0⟩ none).1 false).1,
       some RuntimeErr.alreadyStarted) := by
  have h := platform_single_use
    (Platform.Stop (Platform.Start ⟨false, false, 0⟩ none).1 false).1 none false
  exact ⟨by decide, h.2.2.1 (by decide)⟩

/-- C10: for any status code with no entry in the standard status-text
table the error label of the JSON body is the empty string, and in
particular the 499 client-cancellation response carries status 499 and
an empty error label. -/
theorem unknown_statusText_empty_label (m : String) (st : Int) (cs : List CauseElem)
    (h : statusTextTable.find? (fun p => p.1 == st) = none) :
    (NewApiError m st cs).Error = "" ∧
    (handleBasicError GoError.contextCanceled).1.Status = 499 ∧
    (handleBasicError GoError.contextCanceled).1.Error = "" := by
  refine ⟨?_, rfl, rfl⟩
  simp [NewApiError, statusText, h]

/-- C10 witness: 499 is absent from the status-text table and the
corresponding ApiError label is empty. -/
theorem unknown_statusText_empty_label_witness :
    statusTextTable.find? (fun p => p.1 == (499 : Int)) = none ∧
    (NewApiError "Request was cancelled by client" 499 []).Error = "" := by
  have h : statusTextTable.find? (fun p => p.1 == (499 : Int)) = none := by decide
  exact ⟨h, (unknown_statusText_empty_label "Request was cancelled by client" 499 [] h).1⟩
